import Mathlib

/-!
# Verification of the redis_memtier benchmark orchestration core

Shallow embedding of `perfkitbenchmarker/linux_packages/redis_server.py` and
`perfkitbenchmarker/linux_benchmarks/redis_memtier_benchmark.py`, together
with theorems settling the specification claims about parameter derivation,
command construction, prerequisite checking, metadata merging, telemetry
parsing and the load phase.
-/

/-- A Python value as it appears in sample metadata dictionaries:
strings, integers and booleans. -/
inductive PyVal where
  | vStr (s : String)
  | vInt (n : Int)
  | vBool (b : Bool)
  deriving DecidableEq, Repr

/-- Machine facts consumed by the parameter derivation: mirrors the fields of
the benchmark VM object used by `redis_server.py`
(`NumCpusForBenchmark()`, `CheckLsCpu().threads_per_core`, `total_memory_kb`,
`num_cpus`, `internal_ip`). -/
structure Vm where
  numCpusForBenchmark : Nat
  threadsPerCore : Nat
  totalMemoryKb : Nat
  numCpus : Nat
  internalIp : String
  deriving DecidableEq, Repr

/-- Python lexicographic ordering of two lists of characters, by Unicode code
point, shorter-prefix-first: the semantics of `<` on Python `str` values. -/
def pyListLt : List Char → List Char → Bool
  | [], [] => false
  | [], _ :: _ => true
  | _ :: _, [] => false
  | a :: as, b :: bs =>
      if a.toNat < b.toNat then true
      else if b.toNat < a.toNat then false
      else pyListLt as bs

/-- Python `a >= b` on strings: `not (a < b)` under lexicographic
code-point comparison. This is the comparison the source applies to dotted
version strings (`_VERSION.value >= '6.2.1'`). -/
def pyStrGe (a b : String) : Bool :=
  !(pyListLt a.data b.data)

/-- The flag values read by `redis_server.py`, passed explicitly since the
source reads them from the process-wide flag registry:
`_VERSION`, `_IO_THREADS`, `_IO_THREADS_DO_READS`, `_IO_THREAD_AFFINITY`,
`_ENABLE_SNAPSHOTS`, `_NUM_PROCESSES` (declared with `lower_bound=0`, hence a
natural number), `_EVICTION_POLICY`, `REDIS_AOF`. -/
structure RedisFlags where
  version : String
  ioThreads : Option Int
  ioThreadsDoReads : Bool
  ioThreadAffinity : Bool
  enableSnapshots : Bool
  numProcesses : Nat
  evictionPolicy : String
  redisAof : Bool
  deriving DecidableEq, Repr

/-- `DEFAULT_PORT = 6379` from `redis_server.py`. -/
def DEFAULT_PORT : Nat := 6379

/-- `REDIS_BACKUP = 'scratch'` from `redis_server.py`. -/
def REDIS_BACKUP : String := "scratch"

/-- `_GetNumProcesses(vm)`: starts from the `redis_total_num_processes` flag;
when that flag is `0` and a VM is given, uses `vm.NumCpusForBenchmark()`.
The flag's `lower_bound=0` makes the `assert num_processes >= 0` vacuous. -/
def _GetNumProcesses (numProcessesFlag : Nat) (vm : Option Vm) : Nat :=
  match vm with
  | some v => if numProcessesFlag = 0 then v.numCpusForBenchmark else numProcessesFlag
  | none => numProcessesFlag

/-- Python truthiness of an optional integer flag value: `None` and `0` are
falsy, every other integer is truthy (the test `if _IO_THREADS.value:`). -/
def pyTruthyOptInt : Option Int → Bool
  | none => false
  | some n => n != 0

/-- `_GetIOThreads(vm)`: returns the `redis_server_io_threads` flag when that
flag value is truthy; otherwise derives the count from CPU facts:
`NumCpusForBenchmark() - 1` when `threads_per_core == 1`, else
`NumCpusForBenchmark() // 2`. -/
def _GetIOThreads (ioThreadsFlag : Option Int) (v : Vm) : Int :=
  if pyTruthyOptInt ioThreadsFlag then ioThreadsFlag.getD 0
  else if v.threadsPerCore = 1 then (v.numCpusForBenchmark : Int) - 1
  else (v.numCpusForBenchmark : Int) / 2

/-- `GetRedisPorts(vm)`: `[DEFAULT_PORT + i for i in range(num_processes)]`. -/
def GetRedisPorts (numProcessesFlag : Nat) (vm : Option Vm) : List Nat :=
  (List.range (_GetNumProcesses numProcessesFlag vm)).map (fun i => DEFAULT_PORT + i)

/-- `max_memory_per_instance = int(vm.total_memory_kb * 0.9 / num_processes)`
from `_BuildStartCommand`. The source computes this with IEEE-754 double
arithmetic; this embedding uses exact arithmetic
`⌊total_memory_kb * 9 / (10 * num_processes)⌋`, which agrees with the source
for realistic memory sizes but can differ once `total_memory_kb` is large
enough for double rounding to change the truncated value
(e.g. `total_memory_kb = 10^16 + 2`). -/
def maxMemoryPerInstance (totalMemoryKb numProcesses : Nat) : Nat :=
  totalMemoryKb * 9 / (10 * numProcesses)

/-- The `cmd_args` list built by `_BuildStartCommand(vm, port)`, in source
order: mandatory port and protected-mode flags; append-only-file flags when
`redis_aof` is set; the ARM64 safety flag and the I/O thread count when the
version string compares at least `'6.2.1'`; the snapshot-disabling flag when
snapshots are off; the I/O-thread-read flag; the CPU-affinity range; the
eviction policy (the enum value is always a non-empty string, mirroring the
truthiness test of the source); and the max-memory ceiling. The source
joins these with spaces into
`nohup sudo {redis_dir}/src/redis-server {args} &> /dev/null &`. -/
def _BuildStartCommandArgs (f : RedisFlags) (v : Vm) (port : Nat) : List String :=
  ["--port " ++ toString port, "--protected-mode no"]
  ++ (if f.redisAof then
        ["--appendonly yes",
         "--appendfilename backup_" ++ toString port,
         "--dir /" ++ REDIS_BACKUP]
      else [])
  ++ (if pyStrGe f.version "6.2.1" then
        ["--ignore-warnings ARM64-COW-BUG",
         "--io-threads " ++ toString (_GetIOThreads f.ioThreads v)]
      else [])
  ++ (if !f.enableSnapshots then ["--save \"\""] else [])
  ++ (if f.ioThreadsDoReads then
        ["--io-threads-do-reads " ++ (if f.ioThreadsDoReads then "yes" else "no")]
      else [])
  ++ (if f.ioThreadAffinity then
        ["--server_cpulist 0-" ++ toString ((v.numCpus : Int) - 1)]
      else [])
  ++ (if f.evictionPolicy ≠ "" then
        ["--maxmemory-policy " ++ f.evictionPolicy]
      else [])
  ++ ["--maxmemory " ++
        toString (maxMemoryPerInstance v.totalMemoryKb (_GetNumProcesses f.numProcesses (some v)))
        ++ "kb"]

/-- `GetMetadata(vm)`: the store metadata dictionary, with
`redis_server_io_threads` gated on the version comparison
(`_GetIOThreads(vm) if _VERSION.value >= '6.2.1' else 0`). -/
def GetMetadata (f : RedisFlags) (v : Vm) : List (String × PyVal) :=
  [("redis_server_version", PyVal.vStr f.version),
   ("redis_server_io_threads",
      PyVal.vInt (if pyStrGe f.version "6.2.1" then _GetIOThreads f.ioThreads v else 0)),
   ("redis_server_io_threads_do_reads", PyVal.vBool f.ioThreadsDoReads),
   ("redis_server_io_threads_cpu_affinity", PyVal.vBool f.ioThreadAffinity),
   ("redis_server_enable_snapshots", PyVal.vBool f.enableSnapshots),
   ("redis_server_num_processes", PyVal.vInt (_GetNumProcesses f.numProcesses (some v))),
   ("redis_aof", PyVal.vBool f.redisAof)]

/-- The MaxSessions tuning command issued by `Start`:
`echo "\nMaxSessions {mux_sessions}" | sudo tee -a /etc/ssh/sshd_config`. -/
def maxSessionsCmd (muxSessions : Nat) : String :=
  "echo \"\nMaxSessions " ++ toString muxSessions ++ "\" | sudo tee -a /etc/ssh/sshd_config"

/-- The sysctl update command attempted by `Start` via `TryRemoteCommand`. -/
def UPDATE_SYSCTL_CMD : String :=
  "echo \"vm.overcommit_memory = 1\nnet.core.somaxconn = 65535\n\" | sudo tee -a /etc/sysctl.conf"

/-- The sysctl commit command attempted by `Start` via `TryRemoteCommand`. -/
def COMMIT_SYSCTL_CMD : String :=
  "sudo /usr/sbin/sysctl -p || sudo sysctl -p"

/-- The diagnostic line logged by `Start` when either sysctl operation fails. -/
def SYSCTL_FAIL_LOG : String :=
  "Fail to optimize overcommit_memory and socket connections."

/-- A remote-execution environment: for each command string, whether running
it on the server machine succeeds. `RemoteCommand` raises an error on
failure; `TryRemoteCommand` returns this boolean. -/
def RemoteEnv : Type := String → Bool

/-- Runs a list of commands with `RemoteCommand` semantics: stops at the
first failing command with an error carrying that command, otherwise returns
the list of commands issued. -/
def runRemoteCommands (env : RemoteEnv) : List String → Except String (List String)
  | [] => Except.ok []
  | c :: cs =>
      if env c then
        match runRemoteCommands env cs with
        | Except.ok issued => Except.ok (c :: issued)
        | Except.error e => Except.error e
      else Except.error c

/-- The per-port start commands issued by the loop at the end of `Start`: one
space-joined `_BuildStartCommandArgs` per derived port (the surrounding
`nohup sudo … &` shell wrapper of the source's format string wraps each). -/
def startCommands (f : RedisFlags) (v : Vm) : List String :=
  (GetRedisPorts f.numProcesses (some v)).map
    (fun port => String.intercalate " " (_BuildStartCommandArgs f v port))

/-- Embeds `Start(vm)` from `redis_server.py`: issues the MaxSessions change
with the raising `RemoteCommand`, then attempts the two sysctl commands with
the non-raising `TryRemoteCommand` (logging a diagnostic when either fails),
then issues one start command per derived port with `RemoteCommand`. Returns
the commands issued via `RemoteCommand` together with the log lines, or the
first failing `RemoteCommand`'s command as an error. -/
def Start (f : RedisFlags) (env : RemoteEnv) (v : Vm) :
    Except String (List String × List String) :=
  let numProcesses := _GetNumProcesses f.numProcesses (some v)
  let muxCmd := maxSessionsCmd (10 * numProcesses)
  if env muxCmd then
    let updateSysvtl := env UPDATE_SYSCTL_CMD
    let commitSysvtl := env COMMIT_SYSCTL_CMD
    let logs := if !(updateSysvtl && commitSysvtl) then [SYSCTL_FAIL_LOG] else []
    match runRemoteCommands env (startCommands f v) with
    | Except.ok issued => Except.ok (muxCmd :: issued, logs)
    | Except.error e => Except.error e
  else Except.error (maxSessionsCmd (10 * numProcesses))

/-- A performance sample as used by the benchmark: metric name, value, unit
and a metadata dictionary (`sample.Sample`). Dictionaries are modelled as
association lists in insertion order with unique keys. -/
structure Sample where
  metric : String
  value : PyVal
  unit : String
  metadata : List (String × PyVal)
  deriving DecidableEq, Repr

/-- CPython dictionary lookup `d[k]` on an insertion-ordered association
list: the value of the first (hence, under unique keys, the only) pair with
the given key. -/
def dlookup (k : String) : List (String × PyVal) → Option PyVal
  | [] => none
  | (a, v) :: t => if k = a then some v else dlookup k t

/-- CPython `dict` assignment `d[k] = v` on an insertion-ordered association
list: an existing key keeps its position and gets the new value; a new key is
appended at the end. -/
def dictSet (d : List (String × PyVal)) (k : String) (v : PyVal) :
    List (String × PyVal) :=
  if (dlookup k d).isSome then
    d.map (fun p => if p.1 = k then (k, v) else p)
  else d ++ [(k, v)]

/-- CPython `d.update(other)`: assigns every key/value pair of `other`, in
order, into `d`. -/
def dictUpdate (d other : List (String × PyVal)) : List (String × PyVal) :=
  other.foldl (fun acc p => dictSet acc p.1 p.2) d

/-- The metadata-merging loop of `Run` in `redis_memtier_benchmark.py`
(`server_result.metadata.update(redis_metadata)` then
`server_result.metadata.update(benchmark_metadata)`, with
`benchmark_metadata = {}` in the source). -/
def RunMergePhase (rawResults : List Sample) (redisMetadata : List (String × PyVal)) :
    List Sample :=
  let benchmarkMetadata : List (String × PyVal) := []
  rawResults.map (fun s =>
    { s with metadata := dictUpdate (dictUpdate s.metadata redisMetadata) benchmarkMetadata })

/-- The error message of `CheckPrerequisites` in
`redis_memtier_benchmark.py`. -/
def CHECK_PREREQ_ERROR : String :=
  "There can only be 1 setting for pipeline, threads and clients if there are multiple redis endpoints. Consider splitting up the benchmarking."

/-- `CheckPrerequisites(_)` from `redis_memtier_benchmark.py`: raises
`InvalidFlagConfigurationError` when
`len(redis_server.GetRedisPorts()) >= 0` (the call passes no VM) and any of
the `memtier_pipeline`, `memtier_threads`, `memtier_clients` flag lists has
more than one element. -/
def CheckPrerequisites (numProcessesFlag : Nat)
    (memtierPipeline memtierThreads memtierClients : List Nat) :
    Except String Unit :=
  if (GetRedisPorts numProcessesFlag none).length ≥ 0 ∧
      (memtierPipeline.length > 1 ∨ memtierThreads.length > 1 ∨
        memtierClients.length > 1) then
    Except.error CHECK_PREREQ_ERROR
  else Except.ok ()

/-- The `redis_server_io_threads: 0` default set by the benchmark's
`BENCHMARK_CONFIG` YAML in `redis_memtier_benchmark.py` (the flag value the
config installs for the `redis_server_io_threads` flag). -/
def BENCHMARK_CONFIG_ioThreads : Option Int := some 0

/-- Python `str.split(sep)` for a one-character separator, on the character
list of the string: splits at every occurrence and keeps empty pieces, so the
empty string yields one empty piece, exactly as in Python. -/
def pySplitChar (sep : Char) : List Char → List (List Char)
  | [] => [[]]
  | c :: rest =>
      if c = sep then [] :: pySplitChar sep rest
      else
        match pySplitChar sep rest with
        | [] => [[c]]
        | g :: gs => (c :: g) :: gs

/-- Python `str.strip()` with no argument, on the character list of the
string: removes leading and trailing whitespace. -/
def pyStrip (s : List Char) : List Char :=
  (((s.dropWhile Char.isWhitespace).reverse).dropWhile Char.isWhitespace).reverse

/-- Python `str.splitlines()` restricted to `'\n'` terminators (the only
terminator occurring in the captured `top` output): splits on every newline
and drops a final empty piece, so a trailing newline produces no empty line
and the empty string has no lines. -/
def pySplitlines (s : List Char) : List (List Char) :=
  if s = [] then []
  else
    let parts := pySplitChar '\n' s
    if parts.getLast? = some [] then parts.dropLast else parts

/-- One iteration of the parsing loop of `_GetTopResults`: strips the row,
splits it on `','`, indexes column 3 (an `IndexError`, modelled as `none`,
when there are fewer than four columns), strips that column and splits it on
`' '`, unpacking exactly two pieces (a `ValueError`, modelled as `none`,
otherwise), and builds the sample. -/
def parseTopRow (rowIndex : Nat) (row : List Char) : Option Sample :=
  let line := pyStrip row
  let columns := pySplitChar ',' line
  match columns.get? 3 with
  | none => none
  | some col3 =>
      match pySplitChar ' ' (pyStrip col3) with
      | [idleValue, _] =>
          some { metric := "CPU Idle time",
                 value := PyVal.vStr (String.mk idleValue),
                 unit := "%Cpu(s)",
                 metadata := [("time_series_sec", PyVal.vInt (rowIndex : Int)),
                              ("cpu_idle_percent", PyVal.vStr (String.mk idleValue))] }
      | _ => none

/-- The parsing loop of `_GetTopResults` over the captured rows, threading the
zero-based `row_index`; the first failing row aborts the parse. -/
def parseTopRows (rowIndex : Nat) : List (List Char) → Option (List Sample)
  | [] => some []
  | row :: rest =>
      match parseTopRow rowIndex row with
      | none => none
      | some s =>
          match parseTopRows (rowIndex + 1) rest with
          | none => none
          | some tail => some (s :: tail)

/-- Embeds `_GetTopResults(server_vm)` from `redis_memtier_benchmark.py`,
taking the captured output of `grep Cpu top.txt` as input: returns `[]` when
CPU measurement is off, otherwise parses every line of the captured text into
one sample, propagating a parse failure as `none`. -/
def _GetTopResults (measureCpu : Bool) (cpuUsage : String) : Option (List Sample) :=
  if !measureCpu then some []
  else parseTopRows 0 (pySplitlines cpuUsage.data)

/-- Python `range(start, stop, step)` for a positive step. -/
def pyRangeStep (start stop step : Nat) : List Nat :=
  (List.range ((stop - start + step - 1) / step)).map (fun k => start + k * step)

/-- The batching comprehension of `Prepare`:
`[ports[i : i + 4] for i in range(0, len(ports), 4)]`. -/
def portsGroupOfFour (ports : List Nat) : List (List Nat) :=
  (pyRangeStep 0 ports.length 4).map (fun i => (ports.drop i).take 4)

/-- One dispatch of the load phase: the client machines handed to
`memtier.Load`, the ports of the batch, and the concurrency ceiling passed to
`background_tasks.RunThreaded`. -/
structure LoadDispatch where
  clientVms : List String
  targets : List Nat
  maxConcurrency : Nat
  deriving DecidableEq, Repr

/-- The load-phase loop of `Prepare` in `redis_memtier_benchmark.py`: for each
batch of four ports, in order, one `RunThreaded` dispatch of
`memtier.Load([client_vms[0]], ip, port)` over the batch with concurrency
ceiling `10`. Python's `client_vms[0]` raises `IndexError` on an empty client
list, modelled as `none`. -/
def PrepareLoadDispatches (clientVms : List String) (ports : List Nat) :
    Option (List LoadDispatch) :=
  match clientVms with
  | [] => none
  | c0 :: _ =>
      some ((portsGroupOfFour ports).map
        (fun g => { clientVms := [c0], targets := g, maxConcurrency := 10 }))

/-! ## Dictionary lemmas: CPython `dict.update` lookup semantics -/

lemma map_set_cons (a1 : String) (a2 : PyVal) (t : List (String × PyVal))
    (k : String) (v : PyVal) :
    ((a1, a2) :: t).map (fun p => if p.1 = k then (k, v) else p) =
      (if a1 = k then (k, v) else (a1, a2)) ::
        t.map (fun p => if p.1 = k then (k, v) else p) := rfl

lemma dlookup_map_set_ne (d : List (String × PyVal)) (k k' : String) (v : PyVal)
    (h : k' ≠ k) :
    dlookup k' (d.map (fun p => if p.1 = k then (k, v) else p)) =
      dlookup k' d := by
  induction d with
  | nil => rfl
  | cons a t ih =>
      obtain ⟨a1, a2⟩ := a
      rw [map_set_cons]
      by_cases ha : a1 = k
      · rw [if_pos ha]
        subst ha
        simp [dlookup, h, ih]
      · rw [if_neg ha]
        by_cases hk : k' = a1
        · simp [dlookup, hk]
        · simp [dlookup, hk, ih]

lemma dlookup_map_set_eq (d : List (String × PyVal)) (k : String) (v : PyVal)
    (h : (dlookup k d).isSome = true) :
    dlookup k (d.map (fun p => if p.1 = k then (k, v) else p)) = some v := by
  induction d with
  | nil => simp [dlookup] at h
  | cons a t ih =>
      obtain ⟨a1, a2⟩ := a
      rw [map_set_cons]
      by_cases ha : a1 = k
      · rw [if_pos ha]
        simp [dlookup]
      · rw [if_neg ha]
        have hne : ¬k = a1 := fun hk => ha hk.symm
        simp only [dlookup, if_neg hne] at h
        simp [dlookup, hne, ih h]

lemma dlookup_append_single (d : List (String × PyVal)) (k k' : String) (v : PyVal) :
    dlookup k' (d ++ [(k, v)]) =
      if k' = k then
        (if (dlookup k' d).isSome then dlookup k' d else some v)
      else dlookup k' d := by
  induction d with
  | nil =>
      by_cases hk : k' = k
      · simp [dlookup, hk]
      · simp [dlookup, hk]
  | cons a t ih =>
      obtain ⟨a1, a2⟩ := a
      by_cases hk : k' = a1
      · by_cases hkk : k' = k
        · simp [dlookup, hk, hkk]
        · simp [dlookup, hk, hkk]
      · simp [dlookup, hk, ih]

/-- Lookup after `dictSet`: the written key reads back the written value, every
other key is untouched. -/
lemma dlookup_dictSet (d : List (String × PyVal)) (k : String) (v : PyVal)
    (k' : String) :
    dlookup k' (dictSet d k v) =
      if k' = k then some v else dlookup k' d := by
  unfold dictSet
  by_cases hp : (dlookup k d).isSome = true
  · rw [if_pos hp]
    by_cases hk : k' = k
    · subst hk
      rw [if_pos rfl]
      exact dlookup_map_set_eq d k' v hp
    · rw [if_neg hk]
      exact dlookup_map_set_ne d k k' v hk
  · rw [if_neg hp]
    rw [dlookup_append_single d k k' v]
    by_cases hk : k' = k
    · subst hk
      rw [if_pos rfl, if_pos rfl, if_neg hp]
    · rw [if_neg hk, if_neg hk]

lemma dlookup_not_mem_keys (m : List (String × PyVal)) (k : String)
    (h : k ∉ m.map Prod.fst) : dlookup k m = none := by
  induction m with
  | nil => rfl
  | cons a t ih =>
      obtain ⟨a1, a2⟩ := a
      simp only [List.map_cons, List.mem_cons] at h
      push_neg at h
      simp only [dlookup, if_neg h.1]
      exact ih h.2

/-- Lookup after `dictUpdate` when the update map has unique keys: a key of the
update map reads back the update map's value (overwriting any previous one),
every other key keeps its old value. -/
lemma dlookup_dictUpdate (d m : List (String × PyVal))
    (hm : (m.map Prod.fst).Nodup) (k : String) :
    dlookup k (dictUpdate d m) =
      match dlookup k m with
      | some v => some v
      | none => dlookup k d := by
  induction m generalizing d with
  | nil => rfl
  | cons a t ih =>
      obtain ⟨a1, a2⟩ := a
      simp only [List.map_cons, List.nodup_cons] at hm
      have step : dictUpdate d ((a1, a2) :: t) = dictUpdate (dictSet d a1 a2) t := rfl
      rw [step, ih (dictSet d a1 a2) hm.2]
      by_cases hk : k = a1
      · subst hk
        have ht : dlookup k t = none := dlookup_not_mem_keys t k hm.1
        simp [dlookup, ht, dlookup_dictSet]
      · simp only [dlookup, if_neg hk]
        cases htk : dlookup k t with
        | some v => rfl
        | none =>
            simp only []
            rw [dlookup_dictSet, if_neg hk]

/-! ## C1: metadata merge in the run phase -/

/-- C1 counterexample: the claim says a key already present in the sample's
metadata keeps its original value across the merge. The merge loop of `Run`
uses `dict.update`, which overwrites: a sample carrying `k ↦ "a"` merged with
store metadata `k ↦ "b"` comes out carrying `k ↦ "b"`, not `"a"`. -/
theorem C1_counterexample :
    RunMergePhase
        [{ metric := "m", value := PyVal.vStr "v", unit := "u",
           metadata := [("k", PyVal.vStr "a")] }]
        [("k", PyVal.vStr "b")] =
      [{ metric := "m", value := PyVal.vStr "v", unit := "u",
         metadata := [("k", PyVal.vStr "b")] }] ∧
    PyVal.vStr "b" ≠ PyVal.vStr "a" := by
  constructor
  · rfl
  · decide

/-- C1 (amended): merging the store metadata into each raw sample's metadata
is `dict.update` semantics: every key of the store metadata ends up bound to
the store metadata's value (overwriting a key already present on the sample),
while keys absent from the store metadata keep the sample's original value;
keys new to the sample are added. -/
theorem C1_amended_merge (rawResults : List Sample)
    (m : List (String × PyVal)) (hm : (m.map Prod.fst).Nodup)
    (s : Sample) (k : String) :
    RunMergePhase rawResults m =
      rawResults.map (fun t => { t with metadata := dictUpdate t.metadata m }) ∧
    (dlookup k m = none →
      dlookup k (dictUpdate s.metadata m) = dlookup k s.metadata) ∧
    (∀ v : PyVal, dlookup k m = some v →
      dlookup k (dictUpdate s.metadata m) = some v) := by
  refine ⟨rfl, ?_, ?_⟩
  · intro hnone
    rw [dlookup_dictUpdate s.metadata m hm k, hnone]
  · intro v hv
    rw [dlookup_dictUpdate s.metadata m hm k, hv]

/-- C1 witness: the amended merge theorem applied at a concrete sample and a
concrete store-metadata map. -/
theorem C1_witness :
    dlookup "fresh"
        (dictUpdate [("old", PyVal.vInt 1)]
          [("fresh", PyVal.vStr "x"), ("old", PyVal.vStr "y")]) =
      some (PyVal.vStr "x") :=
  (C1_amended_merge []
      [("fresh", PyVal.vStr "x"), ("old", PyVal.vStr "y")] (by decide)
      { metric := "m", value := PyVal.vInt 0, unit := "u",
        metadata := [("old", PyVal.vInt 1)] }
      "fresh").2.2 (PyVal.vStr "x") (by decide)

/-! ## C2: the prerequisite check -/

/-- C2: the code evaluated at the failing input. With a single endpoint
(`redis_total_num_processes = 1`, hence one derived port) and multi-valued
pipeline settings `[1, 4]`, `CheckPrerequisites` raises the configuration
error, because its guard tests `len(GetRedisPorts()) >= 0`, which is always
true, rather than requiring more than one endpoint. The claim (and the
function's own error message) says a single-endpoint run accepts multi-valued
settings. -/
theorem C2_code_at_failing_input :
    CheckPrerequisites 1 [1, 4] [1] [1] = Except.error CHECK_PREREQ_ERROR ∧
    (GetRedisPorts 1 none).length = 1 := by
  constructor
  · rfl
  · rfl

/-! ## C3: CPU telemetry parsing -/

/-- C3 counterexample: on the exact captured line of the claim, the parser
emits the value `"0.0"`, not `"96.9"`: the line's fourth comma-delimited field
(index 3) is the `ni` field `"  0.0 ni"`, because the text after `Cpu(s)` is
itself comma-separated. -/
theorem C3_counterexample :
    Option.map (fun l => l.map Sample.value)
        (_GetTopResults true "Cpu(s),  2.1 us,  1.0 sy,  0.0 ni, 96.9 id,") =
      some [PyVal.vStr "0.0"] ∧
    PyVal.vStr "0.0" ≠ PyVal.vStr "96.9" := by
  constructor
  · rfl
  · decide

/-- C3 (amended): the captured line
`Cpu(s),  2.1 us,  1.0 sy,  0.0 ni, 96.9 id,` at row position 0 parses into
exactly one Sample named `CPU Idle time` with unit `%Cpu(s)`, but with value
`"0.0"` and metadata `time_series_sec = 0`, `cpu_idle_percent = "0.0"`: the
parser takes comma-field index 3, which on this line is the `ni` field. -/
theorem C3_amended_parse :
    _GetTopResults true "Cpu(s),  2.1 us,  1.0 sy,  0.0 ni, 96.9 id," =
      some [{ metric := "CPU Idle time",
              value := PyVal.vStr "0.0",
              unit := "%Cpu(s)",
              metadata := [("time_series_sec", PyVal.vInt 0),
                           ("cpu_idle_percent", PyVal.vStr "0.0")] }] := by
  rfl

/-! ## C4: tuning operations in Start -/

lemma runRemoteCommands_all_ok (env : RemoteEnv) (cs : List String)
    (h : ∀ c ∈ cs, env c = true) :
    runRemoteCommands env cs = Except.ok cs := by
  induction cs with
  | nil => rfl
  | cons c cs ih =>
      have hc : env c = true := h c (List.mem_cons_self c cs)
      have ht : ∀ x ∈ cs, env x = true := fun x hx => h x (List.mem_cons_of_mem c hx)
      simp [runRemoteCommands, hc, ih ht]

/-- C4 counterexample: the claim says both machine-level tuning operations
are non-fatal. The MaxSessions change is issued with the raising
`RemoteCommand`, so in an environment where exactly that command fails,
`Start` propagates the failure as an error and never reaches the per-port
start commands, contradicting the claim for the MaxSessions operation. -/
theorem C4_counterexample :
    Start { version := "6.2.1", ioThreads := some 1, ioThreadsDoReads := false,
            ioThreadAffinity := false, enableSnapshots := false,
            numProcesses := 1, evictionPolicy := "noeviction", redisAof := false }
        (fun c => c != maxSessionsCmd 10)
        { numCpusForBenchmark := 4, threadsPerCore := 1,
          totalMemoryKb := 1000000, numCpus := 4, internalIp := "10.0.0.2" } =
      Except.error (maxSessionsCmd 10) := by
  rfl

/-- C4 (amended): only the two sysctl operations are best-effort: whatever
their outcomes — update fails, commit fails, both fail, or neither — no
error is raised for them, `Start` proceeds to issue every per-port start
command and succeed, and the diagnostic line is logged exactly when at least
one of the two fails. The MaxSessions operation, in contrast, is issued with
the raising variant, so its failure aborts `Start` (see the
counterexample). -/
theorem C4_amended_sysctl_nonfatal (f : RedisFlags) (v : Vm) (env : RemoteEnv)
    (hmux : env (maxSessionsCmd (10 * _GetNumProcesses f.numProcesses (some v))) = true)
    (hstart : ∀ c ∈ startCommands f v, env c = true) :
    Start f env v =
      Except.ok
        (maxSessionsCmd (10 * _GetNumProcesses f.numProcesses (some v))
           :: startCommands f v,
         if env UPDATE_SYSCTL_CMD && env COMMIT_SYSCTL_CMD then []
         else [SYSCTL_FAIL_LOG]) := by
  have hrun : runRemoteCommands env (startCommands f v) =
      Except.ok (startCommands f v) :=
    runRemoteCommands_all_ok env (startCommands f v) hstart
  cases h1 : env UPDATE_SYSCTL_CMD <;> cases h2 : env COMMIT_SYSCTL_CMD <;>
    simp [Start, hmux, h1, h2, hrun]

/-- C4 witness: the amended theorem applied in a concrete environment in
which only the sysctl commit command fails and everything else succeeds: the
failure is logged, not raised, and the start command is issued. -/
theorem C4_witness :
    Start { version := "6.2.1", ioThreads := some 1, ioThreadsDoReads := false,
            ioThreadAffinity := false, enableSnapshots := false,
            numProcesses := 1, evictionPolicy := "noeviction", redisAof := false }
        (fun c => c != COMMIT_SYSCTL_CMD)
        { numCpusForBenchmark := 4, threadsPerCore := 1,
          totalMemoryKb := 1000000, numCpus := 4, internalIp := "10.0.0.2" } =
      Except.ok
        (maxSessionsCmd 10
           :: startCommands
                { version := "6.2.1", ioThreads := some 1,
                  ioThreadsDoReads := false, ioThreadAffinity := false,
                  enableSnapshots := false, numProcesses := 1,
                  evictionPolicy := "noeviction", redisAof := false }
                { numCpusForBenchmark := 4, threadsPerCore := 1,
                  totalMemoryKb := 1000000, numCpus := 4,
                  internalIp := "10.0.0.2" },
         [SYSCTL_FAIL_LOG]) :=
  C4_amended_sysctl_nonfatal _ _ _ (by decide) (by decide)

/-! ## C5: version-gated start flags and metadata -/

lemma str_data_append (a b : String) : (a ++ b).data = a.data ++ b.data := rfl

lemma str_append_assoc (a b c : String) : (a ++ b) ++ c = a ++ (b ++ c) := by
  apply congrArg String.mk
  exact List.append_assoc a.data b.data c.data

lemma strNeHelper (pre suf target : String) (i : Nat)
    (hi : i < pre.data.length)
    (hne : pre.data[i]? ≠ target.data[i]?) : pre ++ suf ≠ target := by
  intro h
  have h2 : pre.data ++ suf.data = target.data := by
    rw [← str_data_append, h]
  have h3 : (pre.data ++ suf.data)[i]? = target.data[i]? := by rw [h2]
  rw [List.getElem?_append_left hi] at h3
  exact hne h3

lemma strNe2 (pre1 suf1 pre2 suf2 : String) (i : Nat)
    (hi1 : i < pre1.data.length) (hi2 : i < pre2.data.length)
    (hne : pre1.data[i]? ≠ pre2.data[i]?) : pre1 ++ suf1 ≠ pre2 ++ suf2 := by
  intro h
  have h2 : pre1.data ++ suf1.data = pre2.data ++ suf2.data := by
    rw [← str_data_append, ← str_data_append, h]
  have h3 : (pre1.data ++ suf1.data)[i]? = (pre2.data ++ suf2.data)[i]? := by
    rw [h2]
  rw [List.getElem?_append_left hi1, List.getElem?_append_left hi2] at h3
  exact hne h3

set_option maxHeartbeats 2000000 in
/-- When the version gate is closed, every member of the built argument list
is one of the ten non-gated argument shapes. -/
lemma mem_buildArgs_of_no_gate (f : RedisFlags) (v : Vm) (port : Nat) (x : String)
    (hGate : pyStrGe f.version "6.2.1" = false)
    (hx : x ∈ _BuildStartCommandArgs f v port) :
    x = "--port " ++ toString port ∨ x = "--protected-mode no" ∨
    x = "--appendonly yes" ∨ x = "--appendfilename backup_" ++ toString port ∨
    x = "--dir /" ++ REDIS_BACKUP ∨ x = "--save \"\"" ∨
    x = "--io-threads-do-reads " ++ "yes" ∨
    x = "--server_cpulist 0-" ++ toString ((v.numCpus : Int) - 1) ∨
    x = "--maxmemory-policy " ++ f.evictionPolicy ∨
    x = "--maxmemory " ++
          toString (maxMemoryPerInstance v.totalMemoryKb
            (_GetNumProcesses f.numProcesses (some v))) ++ "kb" := by
  unfold _BuildStartCommandArgs at hx
  rw [hGate] at hx
  split_ifs at hx <;>
    simp only [List.mem_append, List.mem_cons, List.mem_singleton,
      List.not_mem_nil, or_false, false_or] at hx <;>
    tauto

/-- When the version gate is open, both gated arguments are in the list. -/
lemma gated_args_mem (f : RedisFlags) (v : Vm) (port : Nat)
    (hGate : pyStrGe f.version "6.2.1" = true) :
    "--ignore-warnings ARM64-COW-BUG" ∈ _BuildStartCommandArgs f v port ∧
    "--io-threads " ++ toString (_GetIOThreads f.ioThreads v) ∈
      _BuildStartCommandArgs f v port := by
  unfold _BuildStartCommandArgs
  rw [hGate]
  constructor <;> simp [List.mem_append]

lemma ign_not_mem_of_no_gate (f : RedisFlags) (v : Vm) (port : Nat)
    (hGate : pyStrGe f.version "6.2.1" = false) :
    "--ignore-warnings ARM64-COW-BUG" ∉ _BuildStartCommandArgs f v port := by
  intro hx
  rcases mem_buildArgs_of_no_gate f v port _ hGate hx with
    h | h | h | h | h | h | h | h | h | h
  · exact strNeHelper "--port " (toString port) _ 2 (by decide) (by decide) h.symm
  · exact absurd h (by decide)
  · exact absurd h (by decide)
  · exact strNeHelper "--appendfilename backup_" (toString port) _ 2
      (by decide) (by decide) h.symm
  · exact absurd h (by decide)
  · exact absurd h (by decide)
  · exact absurd h (by decide)
  · exact strNeHelper "--server_cpulist 0-" (toString ((v.numCpus : Int) - 1)) _ 2
      (by decide) (by decide) h.symm
  · exact strNeHelper "--maxmemory-policy " f.evictionPolicy _ 2
      (by decide) (by decide) h.symm
  · rw [str_append_assoc] at h
    exact strNeHelper "--maxmemory "
      (toString (maxMemoryPerInstance v.totalMemoryKb
        (_GetNumProcesses f.numProcesses (some v))) ++ "kb") _ 2
      (by decide) (by decide) h.symm

lemma io_not_mem_of_no_gate (f : RedisFlags) (v : Vm) (port : Nat)
    (hGate : pyStrGe f.version "6.2.1" = false) (n : Int) :
    "--io-threads " ++ toString n ∉ _BuildStartCommandArgs f v port := by
  intro hx
  rcases mem_buildArgs_of_no_gate f v port _ hGate hx with
    h | h | h | h | h | h | h | h | h | h
  · exact strNe2 "--io-threads " (toString n) "--port " (toString port) 2
      (by decide) (by decide) (by decide) h
  · exact strNeHelper "--io-threads " (toString n) _ 2 (by decide) (by decide) h
  · exact strNeHelper "--io-threads " (toString n) _ 2 (by decide) (by decide) h
  · exact strNe2 "--io-threads " (toString n) "--appendfilename backup_"
      (toString port) 2 (by decide) (by decide) (by decide) h
  · exact strNe2 "--io-threads " (toString n) "--dir /" REDIS_BACKUP 2
      (by decide) (by decide) (by decide) h
  · exact strNeHelper "--io-threads " (toString n) _ 2 (by decide) (by decide) h
  · exact strNe2 "--io-threads " (toString n) "--io-threads-do-reads " "yes" 12
      (by decide) (by decide) (by decide) h
  · exact strNe2 "--io-threads " (toString n) "--server_cpulist 0-"
      (toString ((v.numCpus : Int) - 1)) 2 (by decide) (by decide) (by decide) h
  · exact strNe2 "--io-threads " (toString n) "--maxmemory-policy "
      f.evictionPolicy 2 (by decide) (by decide) (by decide) h
  · rw [str_append_assoc] at h
    exact strNe2 "--io-threads " (toString n) "--maxmemory "
      (toString (maxMemoryPerInstance v.totalMemoryKb
        (_GetNumProcesses f.numProcesses (some v))) ++ "kb") 2
      (by decide) (by decide) (by decide) h

/-- C5: the ARM64 safety flag is in the built start command exactly when the
configured version string compares at least `'6.2.1'` under lexicographic
string comparison; under the same gate the `--io-threads` count argument is
emitted (with the derived count), and is never emitted when the gate is
closed; and the io-thread count reported in the store metadata is the derived
count under the gate and `0` otherwise. -/
theorem C5_version_gating (f : RedisFlags) (v : Vm) (port : Nat) :
    ("--ignore-warnings ARM64-COW-BUG" ∈ _BuildStartCommandArgs f v port ↔
      pyStrGe f.version "6.2.1" = true) ∧
    (pyStrGe f.version "6.2.1" = true →
      "--io-threads " ++ toString (_GetIOThreads f.ioThreads v) ∈
        _BuildStartCommandArgs f v port) ∧
    (pyStrGe f.version "6.2.1" = false →
      ∀ n : Int, "--io-threads " ++ toString n ∉ _BuildStartCommandArgs f v port) ∧
    dlookup "redis_server_io_threads" (GetMetadata f v) =
      some (PyVal.vInt
        (if pyStrGe f.version "6.2.1" then _GetIOThreads f.ioThreads v else 0)) := by
  refine ⟨⟨fun hmem => ?_, fun hg => (gated_args_mem f v port hg).1⟩,
    fun hg => (gated_args_mem f v port hg).2,
    fun hg n => io_not_mem_of_no_gate f v port hg n, rfl⟩
  by_cases hg : pyStrGe f.version "6.2.1" = true
  · exact hg
  · exact absurd hmem (ign_not_mem_of_no_gate f v port (by simpa using hg))

/-- C5 witness: the gating theorem applied at version `6.2.1` (gate open: the
safety flag is emitted) and at version `6.0` (gate closed: no io-thread
argument with count 5 is emitted). -/
theorem C5_witness :
    "--ignore-warnings ARM64-COW-BUG" ∈
      _BuildStartCommandArgs
        { version := "6.2.1", ioThreads := some 2, ioThreadsDoReads := false,
          ioThreadAffinity := false, enableSnapshots := false,
          numProcesses := 1, evictionPolicy := "noeviction", redisAof := false }
        { numCpusForBenchmark := 4, threadsPerCore := 1,
          totalMemoryKb := 1000000, numCpus := 4, internalIp := "a" } 6379 ∧
    "--io-threads " ++ toString (5 : Int) ∉
      _BuildStartCommandArgs
        { version := "6.0", ioThreads := some 2, ioThreadsDoReads := false,
          ioThreadAffinity := false, enableSnapshots := false,
          numProcesses := 1, evictionPolicy := "noeviction", redisAof := false }
        { numCpusForBenchmark := 4, threadsPerCore := 1,
          totalMemoryKb := 1000000, numCpus := 4, internalIp := "a" } 6379 := by
  constructor
  · exact (C5_version_gating
      { version := "6.2.1", ioThreads := some 2, ioThreadsDoReads := false,
        ioThreadAffinity := false, enableSnapshots := false,
        numProcesses := 1, evictionPolicy := "noeviction", redisAof := false }
      { numCpusForBenchmark := 4, threadsPerCore := 1,
        totalMemoryKb := 1000000, numCpus := 4, internalIp := "a" } 6379).1.mpr
      (by decide)
  · exact (C5_version_gating
      { version := "6.0", ioThreads := some 2, ioThreadsDoReads := false,
        ioThreadAffinity := false, enableSnapshots := false,
        numProcesses := 1, evictionPolicy := "noeviction", redisAof := false }
      { numCpusForBenchmark := 4, threadsPerCore := 1,
        totalMemoryKb := 1000000, numCpus := 4, internalIp := "a" } 6379).2.2.1
      (by decide) 5

/-! ## C7 and C10: io-thread derivation -/

/-- C7 counterexample: the claim says that whenever an explicit io-thread
override is given, the derived count equals the override. An explicit
override of `0` (the value the benchmark config itself installs) is falsy in
Python, so the code falls through to the CPU-derived value: on a machine with
4 usable CPUs and one thread per core the result is 3, not the override 0. -/
theorem C7_counterexample :
    _GetIOThreads (some 0)
        { numCpusForBenchmark := 4, threadsPerCore := 1,
          totalMemoryKb := 16000000, numCpus := 4, internalIp := "10.0.0.2" } = 3 ∧
    (3 : Int) ≠ 0 := by
  constructor
  · rfl
  · decide

/-- C7 (amended): a nonzero explicit io-thread override is used as given; an
override of `0` is falsy and behaves exactly like no override; without a
truthy override, a machine with one thread per core derives
`usable_CPUs - 1`, and a machine with more than one thread per core derives
`usable_CPUs // 2`. -/
theorem C7_amended_io_threads (t : Int) (v : Vm) :
    (t ≠ 0 → _GetIOThreads (some t) v = t) ∧
    _GetIOThreads (some 0) v = _GetIOThreads none v ∧
    (v.threadsPerCore = 1 →
      _GetIOThreads none v = (v.numCpusForBenchmark : Int) - 1) ∧
    (1 < v.threadsPerCore →
      _GetIOThreads none v = (v.numCpusForBenchmark : Int) / 2) := by
  refine ⟨?_, ?_, ?_, ?_⟩
  · intro ht
    simp [_GetIOThreads, pyTruthyOptInt, ht]
  · simp [_GetIOThreads, pyTruthyOptInt]
  · intro h1
    simp [_GetIOThreads, pyTruthyOptInt, h1]
  · intro h2
    have hne : v.threadsPerCore ≠ 1 := by omega
    simp [_GetIOThreads, pyTruthyOptInt, hne]

/-- C7 witness: the amended io-thread theorem applied at a concrete nonzero
override and at concrete machines of both threads-per-core shapes. -/
theorem C7_witness :
    _GetIOThreads (some 5)
        { numCpusForBenchmark := 4, threadsPerCore := 1,
          totalMemoryKb := 16000000, numCpus := 4, internalIp := "a" } = 5 ∧
    _GetIOThreads none
        { numCpusForBenchmark := 8, threadsPerCore := 2,
          totalMemoryKb := 16000000, numCpus := 16, internalIp := "b" } = 4 := by
  constructor
  · exact (C7_amended_io_threads 5
      { numCpusForBenchmark := 4, threadsPerCore := 1,
        totalMemoryKb := 16000000, numCpus := 4, internalIp := "a" }).1 (by decide)
  · have h := (C7_amended_io_threads 0
      { numCpusForBenchmark := 8, threadsPerCore := 2,
        totalMemoryKb := 16000000, numCpus := 16, internalIp := "b" }).2.2.2 (by decide)
    rw [h]
    rfl

/-- C10: an explicit io-thread override of `0` is falsy to the truthiness
test of `_GetIOThreads`, so it behaves exactly as if no override were given
and the count is derived from the machine's CPU facts; the benchmark's
default configuration installs exactly this `0` override, so the derived
value is what the default configuration uses. -/
theorem C10_zero_override_derived (v : Vm) :
    _GetIOThreads (some 0) v = _GetIOThreads none v ∧
    _GetIOThreads (some 0) v =
      (if v.threadsPerCore = 1 then (v.numCpusForBenchmark : Int) - 1
       else (v.numCpusForBenchmark : Int) / 2) ∧
    BENCHMARK_CONFIG_ioThreads = some 0 ∧
    _GetIOThreads BENCHMARK_CONFIG_ioThreads v = _GetIOThreads none v := by
  refine ⟨rfl, ?_, rfl, rfl⟩
  simp [_GetIOThreads, pyTruthyOptInt]

/-! ## C9: port derivation -/

/-- C9: the derived port list is exactly `[6379, …, 6379 + N - 1]` of length
`N`, where `N` is the process-count override when it is positive, the
machine's usable CPU count when the override is `0` and a machine is given,
and `0` (an empty list) when the override is `0` and no machine is given. -/
theorem C9_ports (n : Nat) (v : Vm) :
    DEFAULT_PORT = 6379 ∧
    (0 < n →
      GetRedisPorts n (some v) = (List.range n).map (fun i => 6379 + i)) ∧
    GetRedisPorts 0 (some v) =
      (List.range v.numCpusForBenchmark).map (fun i => 6379 + i) ∧
    GetRedisPorts 0 none = [] ∧
    (GetRedisPorts n (some v)).length =
      (if n = 0 then v.numCpusForBenchmark else n) := by
  refine ⟨rfl, ?_, ?_, rfl, ?_⟩
  · intro hn
    have hne : n ≠ 0 := by omega
    simp [GetRedisPorts, _GetNumProcesses, hne, DEFAULT_PORT]
  · simp [GetRedisPorts, _GetNumProcesses, DEFAULT_PORT]
  · by_cases hn : n = 0
    · simp [GetRedisPorts, _GetNumProcesses, hn]
    · simp [GetRedisPorts, _GetNumProcesses, hn]

/-! ## C8: load-phase batching -/

lemma portsGroupOfFour_nil : portsGroupOfFour [] = [] := rfl

lemma count_step (m : Nat) : (m + 4) / 4 = (m - 3 + 3) / 4 + 1 := by
  by_cases h3 : 3 ≤ m
  · rw [Nat.sub_add_cancel h3]
    exact Nat.add_div_right m (by norm_num)
  · interval_cases m <;> rfl

/-- Unfolding step of the batching comprehension: a non-empty port list
yields its first four ports as the head batch, followed by the batches of the
rest. -/
lemma portsGroupOfFour_cons (l : List Nat) (hl : l ≠ []) :
    portsGroupOfFour l = l.take 4 :: portsGroupOfFour (l.drop 4) := by
  obtain ⟨a, as, rfl⟩ : ∃ a as, l = a :: as := by
    cases l with
    | nil => exact absurd rfl hl
    | cons a as => exact ⟨a, as, rfl⟩
  unfold portsGroupOfFour pyRangeStep
  have hlen : (a :: as).length - 0 + 4 - 1 = as.length + 4 := by
    simp [List.length_cons]
  have hlen2 : ((a :: as).drop 4).length - 0 + 4 - 1 = as.length - 3 + 3 := by
    simp only [List.length_drop, List.length_cons]
    omega
  rw [hlen, hlen2, count_step, List.range_succ_eq_map]
  simp only [List.map_cons, List.map_map]
  congr 1
  apply List.map_congr_left
  intro k hk
  simp only [Function.comp]
  have h1 : 0 + Nat.succ k * 4 = k * 4 + 4 := by omega
  have h2 : 0 + k * 4 = k * 4 := by omega
  rw [h1, h2, List.drop_drop, Nat.add_comm 4 (k * 4)]

lemma portsGroupOfFour_aux (fuel : Nat) :
    ∀ l : List Nat, l.length ≤ fuel →
      (portsGroupOfFour l).flatten = l ∧
      (∀ g ∈ portsGroupOfFour l, g ≠ [] ∧ g.length ≤ 4) ∧
      (∀ g ∈ (portsGroupOfFour l).dropLast, g.length = 4) := by
  induction fuel with
  | zero =>
      intro l hl
      have hnil : l = [] := List.eq_nil_of_length_eq_zero (Nat.le_zero.mp hl)
      subst hnil
      simp [portsGroupOfFour_nil]
  | succ fuel ih =>
      intro l hl
      cases l with
      | nil => simp [portsGroupOfFour_nil]
      | cons a as =>
          have hne : (a :: as) ≠ [] := by simp
          rw [portsGroupOfFour_cons _ hne]
          have hlen : (List.drop 4 (a :: as)).length ≤ fuel := by
            simp only [List.length_drop, List.length_cons]
            simp only [List.length_cons] at hl
            omega
          obtain ⟨hj, hmem, hlast⟩ := ih _ hlen
          refine ⟨?_, ?_, ?_⟩
          · rw [List.flatten_cons, hj, List.take_append_drop]
          · intro g hg
            rcases List.mem_cons.mp hg with rfl | hg2
            · refine ⟨by simp, ?_⟩
              rw [List.length_take]
              exact min_le_left 4 _
            · exact hmem g hg2
          · intro g hg
            cases hrest : portsGroupOfFour (List.drop 4 (a :: as)) with
            | nil =>
                rw [hrest] at hg
                simp at hg
            | cons b bs =>
                rw [hrest] at hg
                rw [List.dropLast_cons₂] at hg
                rcases List.mem_cons.mp hg with rfl | hg2
                · have hd : List.drop 4 (a :: as) ≠ [] := by
                    intro hd
                    rw [hd, portsGroupOfFour_nil] at hrest
                    exact List.noConfusion hrest
                  have hlong : 4 ≤ (a :: as).length := by
                    by_contra hc
                    push_neg at hc
                    exact hd (List.drop_eq_nil_of_le (by omega))
                  rw [List.length_take]
                  omega
                · rw [← hrest] at hg2
                  exact hlast g hg2

/-- The batching comprehension partitions the port list: batches concatenate
back to the list in order, every batch is non-empty with at most four ports,
and every batch but the last has exactly four. -/
lemma portsGroupOfFour_spec (l : List Nat) :
    (portsGroupOfFour l).flatten = l ∧
    (∀ g ∈ portsGroupOfFour l, g ≠ [] ∧ g.length ≤ 4) ∧
    (∀ g ∈ (portsGroupOfFour l).dropLast, g.length = 4) :=
  portsGroupOfFour_aux l.length l le_rfl

/-- C8: the load phase partitions the port list in order into consecutive
batches of size 4 (the last possibly smaller), dispatches each batch with
concurrency ceiling 10 using only the first client machine, in batch order;
with the 8 derived ports this yields exactly 2 batches of 4. -/
theorem C8_load_batches (c0 : String) (cs : List String) (ports : List Nat)
    (ds : List LoadDispatch)
    (hds : PrepareLoadDispatches (c0 :: cs) ports = some ds) :
    (ds.map LoadDispatch.targets).flatten = ports ∧
    (∀ d ∈ ds, d.clientVms = [c0] ∧ d.maxConcurrency = 10 ∧
      d.targets ≠ [] ∧ d.targets.length ≤ 4) ∧
    (∀ d ∈ ds.dropLast, d.targets.length = 4) ∧
    PrepareLoadDispatches (c0 :: cs) (GetRedisPorts 8 none) =
      some [{ clientVms := [c0], targets := [6379, 6380, 6381, 6382],
              maxConcurrency := 10 },
            { clientVms := [c0], targets := [6383, 6384, 6385, 6386],
              maxConcurrency := 10 }] := by
  have hds2 : ds = (portsGroupOfFour ports).map
      (fun g => { clientVms := [c0], targets := g, maxConcurrency := 10 }) := by
    have h2 : some ((portsGroupOfFour ports).map
        (fun g => ({ clientVms := [c0], targets := g,
                     maxConcurrency := 10 } : LoadDispatch))) = some ds := hds
    injection h2 with h3
    exact h3.symm
  obtain ⟨hj, hmem, hlast⟩ := portsGroupOfFour_spec ports
  subst hds2
  refine ⟨?_, ?_, ?_, rfl⟩
  · have hcomp : (LoadDispatch.targets ∘
        fun g : List Nat =>
          ({ clientVms := [c0], targets := g,
             maxConcurrency := 10 } : LoadDispatch)) = fun g => g := rfl
    rw [List.map_map, hcomp, List.map_id']
    exact hj
  · intro d hd
    obtain ⟨g, hg, rfl⟩ := List.mem_map.mp hd
    exact ⟨rfl, rfl, (hmem g hg).1, (hmem g hg).2⟩
  · intro d hd
    rw [← List.map_dropLast] at hd
    obtain ⟨g, hg, rfl⟩ := List.mem_map.mp hd
    exact hlast g hg

/-- C8 witness: the batching theorem applied at the 8-port scenario: the two
dispatched batches concatenate back to the 8 derived ports. -/
theorem C8_witness :
    (([{ clientVms := ["client0"], targets := [6379, 6380, 6381, 6382],
         maxConcurrency := 10 },
       { clientVms := ["client0"], targets := [6383, 6384, 6385, 6386],
         maxConcurrency := 10 }] : List LoadDispatch).map
        LoadDispatch.targets).flatten = GetRedisPorts 8 none :=
  (C8_load_batches "client0" [] (GetRedisPorts 8 none)
      [{ clientVms := ["client0"], targets := [6379, 6380, 6381, 6382],
         maxConcurrency := 10 },
       { clientVms := ["client0"], targets := [6383, 6384, 6385, 6386],
         maxConcurrency := 10 }] (by rfl)).1

/-- C9 witness: the port-derivation theorem applied at override 3: three
consecutive ports from 6379. -/
theorem C9_witness :
    GetRedisPorts 3
        (some { numCpusForBenchmark := 4, threadsPerCore := 1,
                totalMemoryKb := 16000000, numCpus := 4, internalIp := "a" }) =
      [6379, 6380, 6381] := by
  have h := (C9_ports 3
      { numCpusForBenchmark := 4, threadsPerCore := 1,
        totalMemoryKb := 16000000, numCpus := 4, internalIp := "a" }).2.1 (by decide)
  rw [h]
  rfl
